import Mathlib

/-!
# FocusPad backend (`src/backend/app/main.py`) — shallow embedding

The service is a single-module FastAPI application with two in-memory
stores (tasks and focus sessions, Python `dict`s keyed by `int` ids,
insertion-ordered), two monotone id counters (`itertools.count(start=1)`),
and eight HTTP operations.  We embed the Python runtime values directly:

* Python `dict[int, V]` becomes an insertion-ordered association list
  `List (Nat × V)`; assignment to an existing key replaces the value in
  place, assignment to a fresh key appends, `pop` removes the pair.
* `datetime.now(UTC)` timestamps are modelled as `Nat` (seconds since
  epoch), supplied as an explicit `now` argument to each creating
  operation; `.date()` becomes integer division by 86400.
* Pydantic models become structures.  Crucially, `model_copy(update=...)`
  does **not** re-validate, so at runtime a stored `Task` field may hold
  `None` even when its annotation is non-optional (e.g. `title : str`).
  The stored `Task` therefore carries `Option` in every payload-updatable
  field; boundary validation is a separate predicate.
* A `TaskUpdate` field distinguishes *absent from the request* from
  *explicitly supplied as null* (pydantic `exclude_unset`): `FieldU`.
* Python `float` results of `/` and `round(x, 1)` are idealised as `ℚ`
  with round-half-to-even at one decimal (CPython's `round` tie policy).
* `HTTPException` before any mutation becomes `Except ApiError`.
-/

namespace FocusPad

/-- `priority: Literal["low", "medium", "high"]`. -/
inductive Priority
  | low
  | medium
  | high
deriving DecidableEq, Repr

/-- Runtime value of a stored `Task` record.  Annotated types in the
source are `id : int`, `title : str`, `description : str | None`,
`priority : Literal[...]`, `estimated_minutes : int | None`,
`completed : bool`, `created_at : datetime`; every field a `TaskUpdate`
payload can touch is wrapped in `Option` here because
`model_copy(update=...)` skips validation and can store `None` into any
of them. -/
structure Task where
  id : Nat
  title : Option String
  description : Option String
  priority : Option Priority
  estimated_minutes : Option Nat
  completed : Option Bool
  created_at : Nat
deriving DecidableEq, Repr

/-- `TaskCreate` payload (already past pydantic validation, so the
required field `title` is a plain `String` and `priority` has its
default applied). -/
structure TaskCreate where
  title : String
  description : Option String
  priority : Priority
  estimated_minutes : Option Nat
deriving DecidableEq, Repr

/-- Presence marker for a pydantic field under `exclude_unset`:
`unset` = the key was absent from the request body; `set v` = the key
was present with (validated) value `v`, where `v` may itself be `none`
for an explicit JSON `null`. -/
inductive FieldU (α : Type)
  | unset
  | set (v : α)
deriving DecidableEq, Repr

/-- `TaskUpdate` payload.  Every field's annotation in the source is
`T | None = None`, so an explicit `null` is accepted by validation for
each of them — including `title`, whose length constraints apply only
to the `str` branch of the union. -/
structure TaskUpdate where
  title : FieldU (Option String)
  description : FieldU (Option String)
  priority : FieldU (Option Priority)
  estimated_minutes : FieldU (Option Nat)
  completed : FieldU (Option Bool)
deriving DecidableEq, Repr

/-- Stored `FocusSession` record.  Sessions are immutable after
creation, so the fields keep their annotated types. -/
structure FocusSession where
  id : Nat
  task_id : Option Nat
  seconds : Nat
  note : Option String
  created_at : Nat
deriving DecidableEq, Repr

/-- `FocusSessionCreate` payload. -/
structure FocusSessionCreate where
  task_id : Option Nat
  seconds : Nat
  note : Option String
deriving DecidableEq, Repr

/-- `StatsResponse`; the two `float` fields are idealised as `ℚ`. -/
structure StatsResponse where
  total_sessions : Nat
  total_focus_minutes : Nat
  average_session_minutes : ℚ
  longest_session_minutes : ℚ
  focus_days : Nat
  completed_tasks : Nat
  active_tasks : Nat
deriving DecidableEq, Repr

/-- The only handler-raised error: `HTTPException(status_code=404)`. -/
inductive ApiError
  | notFound
deriving DecidableEq, Repr

/-- The module-level mutable state: both stores and both counters.
A counter field holds the *next* value `next()` would yield. -/
structure AppState where
  task_store : List (Nat × Task)
  session_store : List (Nat × FocusSession)
  task_id_counter : Nat
  session_id_counter : Nat
deriving DecidableEq, Repr

/-- Fresh interpreter state: empty stores, both counters at 1. -/
def initState : AppState :=
  { task_store := [], session_store := [],
    task_id_counter := 1, session_id_counter := 1 }

/-! ### Python `dict[int, V]` primitives -/

/-- `k in d`. -/
def dictHas {α : Type} : List (Nat × α) → Nat → Bool
  | [], _ => false
  | kv :: rest, k => kv.1 == k || dictHas rest k

/-- `d[k]`, as an `Option` (the source wraps the `KeyError` case):
first (and, keys being unique in a Python dict, only) binding of `k`. -/
def dictGet {α : Type} : List (Nat × α) → Nat → Option α
  | [], _ => none
  | kv :: rest, k => if kv.1 = k then some kv.2 else dictGet rest k

/-- `d[k] = v`: replace the binding in place when the key exists
(Python dicts keep the original insertion position), append otherwise. -/
def dictSet {α : Type} : List (Nat × α) → Nat → α → List (Nat × α)
  | [], k, v => [(k, v)]
  | kv :: rest, k, v =>
    if kv.1 = k then (k, v) :: rest else kv :: dictSet rest k v

/-- `d.pop(k)` (the caller has already checked membership). -/
def dictDel {α : Type} : List (Nat × α) → Nat → List (Nat × α)
  | [], _ => []
  | kv :: rest, k => if kv.1 = k then dictDel rest k else kv :: dictDel rest k

/-! ### Boundary (pydantic) validation -/

/-- Pydantic validation of a `TaskCreate` body: `title` 1–120 chars,
`description` ≤ 1000 chars, `estimated_minutes` in 1–720 when given. -/
def validTaskCreate (p : TaskCreate) : Bool :=
  decide (1 ≤ p.title.length ∧ p.title.length ≤ 120) &&
  (match p.description with
   | none => true
   | some d => decide (d.length ≤ 1000)) &&
  (match p.estimated_minutes with
   | none => true
   | some n => decide (1 ≤ n ∧ n ≤ 720))

/-- Pydantic validation of a `TaskUpdate` body.  Every field is
`T | None`, so an explicitly supplied `null` passes for all five
fields; the length/range constraints apply only to non-null values. -/
def validTaskUpdate (p : TaskUpdate) : Bool :=
  (match p.title with
   | .unset => true
   | .set none => true
   | .set (some t) => decide (1 ≤ t.length ∧ t.length ≤ 120)) &&
  (match p.description with
   | .unset => true
   | .set none => true
   | .set (some d) => decide (d.length ≤ 1000)) &&
  (match p.estimated_minutes with
   | .unset => true
   | .set none => true
   | .set (some n) => decide (1 ≤ n ∧ n ≤ 720))

/-- Pydantic validation of a `FocusSessionCreate` body: `seconds` in
60–43200, `note` ≤ 240 chars. -/
def validSessionCreate (p : FocusSessionCreate) : Bool :=
  decide (60 ≤ p.seconds ∧ p.seconds ≤ 12 * 60 * 60) &&
  (match p.note with
   | none => true
   | some t => decide (t.length ≤ 240))

/-! ### Task operations -/

/-- `POST /tasks`: draw the next id, build the record with
`completed=False` and the current time, store it, return it. -/
def create_task (s : AppState) (p : TaskCreate) (now : Nat) :
    Task × AppState :=
  let task_id := s.task_id_counter
  let task : Task :=
    { id := task_id, title := some p.title, description := p.description,
      priority := some p.priority, estimated_minutes := p.estimated_minutes,
      completed := some false, created_at := now }
  (task, { s with task_store := dictSet s.task_store task_id task,
                  task_id_counter := s.task_id_counter + 1 })

/-- `stored_task.model_copy(update=payload.model_dump(exclude_unset=True))`:
each field present in the payload overwrites the stored value (with no
re-validation — an explicit `null` lands as `none`); absent fields, and
`id` / `created_at`, which `TaskUpdate` cannot carry, are untouched. -/
def applyUpdate (t : Task) (p : TaskUpdate) : Task :=
  { t with
    title := match p.title with | .unset => t.title | .set v => v
    description := match p.description with | .unset => t.description | .set v => v
    priority := match p.priority with | .unset => t.priority | .set v => v
    estimated_minutes :=
      match p.estimated_minutes with | .unset => t.estimated_minutes | .set v => v
    completed := match p.completed with | .unset => t.completed | .set v => v }

/-- `PATCH /tasks/{task_id}`: look up first (404 on `KeyError`), then
merge the sparse payload and write the merged record back. -/
def update_task (s : AppState) (task_id : Nat) (p : TaskUpdate) :
    Except ApiError (Task × AppState) :=
  match dictGet s.task_store task_id with
  | none => .error .notFound
  | some stored_task =>
    let updated := applyUpdate stored_task p
    .ok (updated, { s with task_store := dictSet s.task_store task_id updated })

/-- `DELETE /tasks/{task_id}`: membership check first (404), then pop. -/
def delete_task (s : AppState) (task_id : Nat) : Except ApiError AppState :=
  if dictHas s.task_store task_id then
    .ok { s with task_store := dictDel s.task_store task_id }
  else
    .error .notFound

/-- Sort-key image of the `completed` field.  Python compares
`False < True` as `0 < 1`; a runtime `None` (reachable only through the
unvalidated `model_copy` path) would raise `TypeError` inside `sorted`,
so the `none` row is a totalisation and ordering theorems assume every
stored `completed` is set. -/
def pyCompletedKey : Option Bool → Nat
  | none => 0
  | some false => 0
  | some true => 1

/-- The sort order of `GET /tasks`: key
`(task.completed, -task.created_at.timestamp())` compared
lexicographically. -/
def taskLe (a b : Task) : Prop :=
  pyCompletedKey a.completed < pyCompletedKey b.completed ∨
    (pyCompletedKey a.completed = pyCompletedKey b.completed ∧
      b.created_at ≤ a.created_at)

instance : DecidableRel taskLe := fun a b => by
  unfold taskLe; infer_instance

instance : IsTotal Task taskLe :=
  ⟨fun a b => by unfold taskLe; omega⟩

instance : IsTrans Task taskLe :=
  ⟨fun a b c hab hbc => by
    unfold taskLe at hab hbc ⊢; omega⟩

/-- `GET /tasks`: all stored tasks, `sorted` by
`(completed, -created_at)`.  Python's sort is a stable comparison sort;
`insertionSort` over the same (total, transitive) key order produces a
permutation sorted the same way. -/
def list_tasks (s : AppState) : List Task :=
  List.insertionSort taskLe (s.task_store.map (fun kv => kv.2))

/-! ### Session operations -/

/-- `GET /sessions`: all stored sessions, newest first. -/
def list_sessions (s : AppState) : List FocusSession :=
  List.insertionSort (fun a b => b.created_at ≤ a.created_at)
    (s.session_store.map (fun kv => kv.2))

/-- `POST /sessions`: when `task_id` is supplied it must name an
existing task (404 otherwise, before the counter is touched); then draw
the next session id, build, store and return the record. -/
def create_session (s : AppState) (p : FocusSessionCreate) (now : Nat) :
    Except ApiError (FocusSession × AppState) :=
  if (match p.task_id with
      | some tid => !(dictHas s.task_store tid)
      | none => false) then
    .error .notFound
  else
    let session_id := s.session_id_counter
    let sess : FocusSession :=
      { id := session_id, task_id := p.task_id, seconds := p.seconds,
        note := p.note, created_at := now }
    .ok (sess, { s with
      session_store := dictSet s.session_store session_id sess,
      session_id_counter := s.session_id_counter + 1 })

/-! ### Stats -/

/-- CPython `round` to an integer: round-half-to-even. -/
def pyRound (x : ℚ) : ℤ :=
  if x - (⌊x⌋ : ℚ) < 1 / 2 then ⌊x⌋
  else if (1 / 2 : ℚ) < x - (⌊x⌋ : ℚ) then ⌊x⌋ + 1
  else if ⌊x⌋ % 2 = 0 then ⌊x⌋ else ⌊x⌋ + 1

/-- `round(x, 1)`. -/
def round1 (x : ℚ) : ℚ :=
  (pyRound (10 * x) : ℚ) / 10

/-- `len({session.created_at.date() for session in sessions})`, with
`.date()` idealised as the epoch-day index `created_at / 86400`. -/
def _calculate_focus_days (sessions : List FocusSession) : Nat :=
  ((sessions.map (fun x => x.created_at / 86400)).dedup).length

/-- `max(session.seconds for ...)` with the empty-`max` `ValueError`
caught and turned into `0.0`. -/
def _calculate_longest_session_minutes (sessions : List FocusSession) : ℚ :=
  match sessions with
  | [] => 0
  | _ :: _ =>
    round1 ((((sessions.map (fun x => x.seconds)).foldr Nat.max 0 : Nat) : ℚ) / 60)

/-- `GET /stats`.  `completed_tasks` is Python
`sum(task.completed for ...)` and `active_tasks` is
`sum(not task.completed for ...)`; `not None = True` in Python, so the
active count treats a corrupted `none` as active, while summing a
`None` into `completed_tasks` would raise — the `some true` test below
totalises that row. -/
def get_stats (s : AppState) : StatsResponse :=
  let sessions := s.session_store.map (fun kv => kv.2)
  let total_sessions := sessions.length
  let total_focus_seconds := (sessions.map (fun x => x.seconds)).sum
  let total_minutes := total_focus_seconds / 60
  let average_minutes : ℚ :=
    if total_sessions = 0 then 0
    else round1 (((total_focus_seconds : ℚ) / 60) / (total_sessions : ℚ))
  { total_sessions := total_sessions
    total_focus_minutes := total_minutes
    average_session_minutes := average_minutes
    longest_session_minutes := _calculate_longest_session_minutes sessions
    focus_days := _calculate_focus_days sessions
    completed_tasks :=
      ((s.task_store.map (fun kv => kv.2)).filter
        (fun t => t.completed == some true)).length
    active_tasks :=
      ((s.task_store.map (fun kv => kv.2)).filter
        (fun t => !(t.completed == some true))).length }

/-! ### Traces of API calls -/

/-- One state-mutating API call (the read-only `GET`s never change the
state and are omitted from traces). -/
inductive Op
  | createTask (p : TaskCreate) (now : Nat)
  | updateTask (id : Nat) (p : TaskUpdate)
  | deleteTask (id : Nat)
  | createSession (p : FocusSessionCreate) (now : Nat)

/-- State after one call; a 404 raised before any write leaves the
state as it was. -/
def step (s : AppState) : Op → AppState
  | .createTask p now => (create_task s p now).2
  | .updateTask id p =>
    match update_task s id p with
    | .ok (_, s2) => s2
    | .error _ => s
  | .deleteTask id =>
    match delete_task s id with
    | .ok s2 => s2
    | .error _ => s
  | .createSession p now =>
    match create_session s p now with
    | .ok (_, s2) => s2
    | .error _ => s

/-- State after a whole trace from process start. -/
def run (ops : List Op) : AppState :=
  ops.foldl step initState

/-- The task ids handed out by the successive `POST /tasks` calls of a
trace, in call order. -/
def traceTaskIds (s : AppState) : List Op → List Nat
  | [] => []
  | op :: ops =>
    match op with
    | .createTask _ _ => s.task_id_counter :: traceTaskIds (step s op) ops
    | _ => traceTaskIds (step s op) ops

/-- Number of `POST /tasks` calls in a trace. -/
def numTaskCreates : List Op → Nat
  | [] => 0
  | .createTask _ _ :: ops => numTaskCreates ops + 1
  | _ :: ops => numTaskCreates ops + 0

/-! ### Association-list (Python dict) lemmas -/

theorem dictGet_eq_none_iff {α : Type} (store : List (Nat × α)) (k : Nat) :
    dictGet store k = none ↔ dictHas store k = false := by
  induction store with
  | nil => simp [dictGet, dictHas]
  | cons kv rest ih =>
    by_cases hk : kv.1 = k
    · simp [dictGet, dictHas, hk]
    · simp [dictGet, dictHas, hk, ih]

theorem dictGet_dictSet_self {α : Type} (store : List (Nat × α)) (k : Nat) (v : α) :
    dictGet (dictSet store k v) k = some v := by
  induction store with
  | nil => simp [dictGet, dictSet]
  | cons kv rest ih =>
    by_cases hk : kv.1 = k
    · simp [dictGet, dictSet, hk]
    · simp [dictGet, dictSet, hk, ih]

theorem dictGet_dictSet_ne {α : Type} (store : List (Nat × α)) (k k₂ : Nat) (v : α)
    (h : k₂ ≠ k) : dictGet (dictSet store k v) k₂ = dictGet store k₂ := by
  have hne : ¬ k = k₂ := fun hc => h hc.symm
  induction store with
  | nil => simp [dictGet, dictSet, hne]
  | cons kv rest ih =>
    by_cases hk : kv.1 = k
    · simp [dictGet, dictSet, hk, hne]
    · by_cases hk2 : kv.1 = k₂
      · simp [dictGet, dictSet, hk, hk2, hne, h]
      · simp [dictGet, dictSet, hk, hk2, ih]

theorem dictGet_dictDel_self {α : Type} (store : List (Nat × α)) (k : Nat) :
    dictGet (dictDel store k) k = none := by
  induction store with
  | nil => rfl
  | cons kv rest ih =>
    by_cases hk : kv.1 = k
    · simpa [dictDel, hk] using ih
    · simpa [dictDel, dictGet, hk] using ih

theorem dictGet_dictDel_ne {α : Type} (store : List (Nat × α)) (k k₂ : Nat)
    (h : k₂ ≠ k) : dictGet (dictDel store k) k₂ = dictGet store k₂ := by
  have hne : ¬ k = k₂ := fun hc => h hc.symm
  induction store with
  | nil => rfl
  | cons kv rest ih =>
    by_cases hk : kv.1 = k
    · simp [dictDel, dictGet, hk, hne, ih]
    · by_cases hk2 : kv.1 = k₂
      · simp [dictDel, dictGet, hk, hk2, hne, h]
      · simp [dictDel, dictGet, hk, hk2, ih]

theorem dictSet_self {α : Type} (store : List (Nat × α)) (k : Nat) (v : α)
    (h : dictGet store k = some v) : dictSet store k v = store := by
  induction store with
  | nil => simp [dictGet] at h
  | cons kv rest ih =>
    by_cases hk : kv.1 = k
    · have hv : kv.2 = v := by simpa [dictGet, hk] using h
      obtain ⟨a, b⟩ := kv
      subst hk
      subst hv
      simp [dictSet]
    · have hg : dictGet rest k = some v := by simpa [dictGet, hk] using h
      simp [dictSet, hk, ih hg]

theorem dictHas_eq_true_of_get {α : Type} (store : List (Nat × α)) (k : Nat) (v : α)
    (h : dictGet store k = some v) : dictHas store k = true := by
  by_contra hc
  rw [(dictGet_eq_none_iff store k).mpr (Bool.eq_false_iff.mpr hc)] at h
  exact Option.noConfusion h

/-! ### Maximum of a list of naturals (Python `max`) -/

theorem le_foldr_max (l : List Nat) : ∀ x ∈ l, x ≤ l.foldr Nat.max 0 := by
  induction l with
  | nil => simp
  | cons a t ih =>
    intro x hx
    rcases List.mem_cons.mp hx with rfl | hx
    · exact Nat.le_max_left _ _
    · exact le_trans (ih x hx) (Nat.le_max_right _ _)

theorem foldr_max_mem (l : List Nat) (h : l ≠ []) : l.foldr Nat.max 0 ∈ l := by
  induction l with
  | nil => exact absurd rfl h
  | cons a t ih =>
    by_cases ht : t = []
    · subst ht; simp
    · have hm := ih ht
      have hfold : (a :: t).foldr Nat.max 0 = a.max (t.foldr Nat.max 0) := rfl
      rw [hfold]
      rcases Nat.le_total (t.foldr Nat.max 0) a with hle | hle
      · have hx : a.max (t.foldr Nat.max 0) = a := Nat.max_eq_left hle
        rw [hx]; exact List.mem_cons_self _ _
      · have hx : a.max (t.foldr Nat.max 0) = t.foldr Nat.max 0 :=
          Nat.max_eq_right hle
        rw [hx]; exact List.mem_cons_of_mem _ hm

/-! ### Counter behaviour along traces -/

theorem step_task_counter (s : AppState) (op : Op) :
    (step s op).task_id_counter
      = s.task_id_counter
        + (match op with | .createTask _ _ => 1 | _ => 0) := by
  cases op with
  | createTask p now => rfl
  | updateTask i p =>
    cases hg : dictGet s.task_store i with
    | none => simp [step, update_task, hg]
    | some t0 => simp [step, update_task, hg]
  | deleteTask i =>
    by_cases hh : dictHas s.task_store i = true
    · simp [step, delete_task, hh]
    · simp [step, delete_task, hh]
  | createSession p now =>
    by_cases hc : (match p.task_id with
        | some tid => !(dictHas s.task_store tid)
        | none => false) = true
    · simp [step, create_session, hc]
    · simp [step, create_session, hc]

theorem traceTaskIds_eq_range (ops : List Op) : ∀ s : AppState,
    traceTaskIds s ops = List.range' s.task_id_counter (numTaskCreates ops) := by
  induction ops with
  | nil => intro s; rfl
  | cons op ops ih =>
    intro s
    cases op with
    | createTask p now =>
      have hc : (step s (Op.createTask p now)).task_id_counter
          = s.task_id_counter + 1 := step_task_counter s _
      simp only [traceTaskIds, numTaskCreates, ih, hc]
      rw [List.range'_succ]
    | updateTask i p =>
      have hc := step_task_counter s (Op.updateTask i p)
      simp only [traceTaskIds, numTaskCreates, ih, hc, Nat.add_zero]
    | deleteTask i =>
      have hc := step_task_counter s (Op.deleteTask i)
      simp only [traceTaskIds, numTaskCreates, ih, hc, Nat.add_zero]
    | createSession p now =>
      have hc := step_task_counter s (Op.createSession p now)
      simp only [traceTaskIds, numTaskCreates, ih, hc, Nat.add_zero]

/-! ### Claims -/

/-- C4: over every sequence of API calls starting from the fresh state,
the task ids handed out by the successive `POST /tasks` calls are
exactly `1, 2, 3, …` in call order — strictly increasing, starting at
1, and never repeated, deletions notwithstanding (the `count` object is
never rewound). -/
theorem task_ids_strictly_increase_and_never_repeat (ops : List Op) :
    traceTaskIds initState ops = List.range' 1 (numTaskCreates ops) ∧
    List.Sorted (· < ·) (traceTaskIds initState ops) ∧
    (traceTaskIds initState ops).Nodup := by
  have he : traceTaskIds initState ops = List.range' 1 (numTaskCreates ops) :=
    traceTaskIds_eq_range ops initState
  have hs : List.Sorted (· < ·) (traceTaskIds initState ops) := by
    rw [he]; exact List.pairwise_lt_range' 1 (numTaskCreates ops) 1 (by omega)
  exact ⟨he, hs, hs.imp (fun h => Nat.ne_of_lt h)⟩

/-- C10: task-side operations (`POST /tasks`, `PATCH /tasks/{id}`,
`DELETE /tasks/{id}`) never touch the session store or the session id
counter, and `POST /sessions` never touches the task store or the task
id counter; in particular deleting a task leaves every stored session
— dangling `task_id` references included — exactly as it was. -/
theorem operations_respect_store_boundaries (s : AppState) (pc : TaskCreate)
    (n1 : Nat) (i : Nat) (pu : TaskUpdate) (j : Nat) (ps : FocusSessionCreate)
    (n2 : Nat) :
    (step s (.createTask pc n1)).session_store = s.session_store ∧
    (step s (.createTask pc n1)).session_id_counter = s.session_id_counter ∧
    (step s (.updateTask i pu)).session_store = s.session_store ∧
    (step s (.updateTask i pu)).session_id_counter = s.session_id_counter ∧
    (step s (.deleteTask j)).session_store = s.session_store ∧
    (step s (.deleteTask j)).session_id_counter = s.session_id_counter ∧
    (step s (.createSession ps n2)).task_store = s.task_store ∧
    (step s (.createSession ps n2)).task_id_counter = s.task_id_counter := by
  refine ⟨rfl, rfl, ?_, ?_, ?_, ?_, ?_, ?_⟩
  · cases hg : dictGet s.task_store i with
    | none => simp [step, update_task, hg]
    | some t0 => simp [step, update_task, hg]
  · cases hg : dictGet s.task_store i with
    | none => simp [step, update_task, hg]
    | some t0 => simp [step, update_task, hg]
  · by_cases hh : dictHas s.task_store j = true
    · simp [step, delete_task, hh]
    · simp [step, delete_task, hh]
  · by_cases hh : dictHas s.task_store j = true
    · simp [step, delete_task, hh]
    · simp [step, delete_task, hh]
  · by_cases hc : (match ps.task_id with
        | some tid => !(dictHas s.task_store tid)
        | none => false) = true
    · simp [step, create_session, hc]
    · simp [step, create_session, hc]
  · by_cases hc : (match ps.task_id with
        | some tid => !(dictHas s.task_store tid)
        | none => false) = true
    · simp [step, create_session, hc]
    · simp [step, create_session, hc]

/-- Concrete stats scenario from the spec: one task, one 1500-second
session logged against it. -/
def statsDemoState : AppState :=
  run [Op.createTask
        { title := "A", description := none, priority := .medium,
          estimated_minutes := none } 0,
      Op.createSession { task_id := some 1, seconds := 1500, note := none } 10]

/-- C2: `GET /stats` reports `total_sessions` = number of stored
sessions, `total_focus_minutes` = floor of (sum of seconds) / 60,
`average_session_minutes` = round to 1 decimal of
((sum of seconds) / 60) / total_sessions when sessions exist and `0.0`
otherwise (no division by zero on the empty store), and
`longest_session_minutes` = round to 1 decimal of
(maximum session seconds) / 60 when sessions exist and `0.0`
otherwise. -/
theorem longest_session_of_ne_nil (sessions : List FocusSession)
    (h : sessions ≠ []) :
    _calculate_longest_session_minutes sessions
      = round1 ((((sessions.map (fun x => x.seconds)).foldr Nat.max 0 : Nat) : ℚ) / 60) := by
  cases sessions with
  | nil => exact absurd rfl h
  | cons a t => rfl

theorem stats_aggregation_correct (s : AppState) :
    (get_stats s).total_sessions = s.session_store.length ∧
    (get_stats s).total_focus_minutes
      = (s.session_store.map (fun kv => kv.2.seconds)).sum / 60 ∧
    (s.session_store.length = 0 → (get_stats s).average_session_minutes = 0) ∧
    (0 < s.session_store.length →
      (get_stats s).average_session_minutes
        = round1 (((((s.session_store.map (fun kv => kv.2.seconds)).sum : Nat) : ℚ) / 60)
            / (s.session_store.length : ℚ))) ∧
    (s.session_store = [] → (get_stats s).longest_session_minutes = 0) ∧
    (s.session_store ≠ [] →
      ∃ m : Nat, m ∈ s.session_store.map (fun kv => kv.2.seconds) ∧
        (∀ x ∈ s.session_store.map (fun kv => kv.2.seconds), x ≤ m) ∧
        (get_stats s).longest_session_minutes = round1 ((m : ℚ) / 60)) := by
  have hsecs : (s.session_store.map (fun kv => kv.2)).map (fun x => x.seconds)
      = s.session_store.map (fun kv => kv.2.seconds) := by
    rw [List.map_map]; rfl
  refine ⟨?_, ?_, ?_, ?_, ?_, ?_⟩
  · simp [get_stats]
  · simp only [get_stats, hsecs]
  · intro h
    simp [get_stats, List.length_map, h]
  · intro h
    simp only [get_stats, hsecs, List.length_map,
      if_neg (by omega : ¬ s.session_store.length = 0)]
  · intro h
    simp [get_stats, _calculate_longest_session_minutes, h]
  · intro h
    have hmapne : (s.session_store.map (fun kv => kv.2)) ≠ [] := by
      intro hc; apply h; simpa using hc
    refine ⟨(s.session_store.map (fun kv => kv.2.seconds)).foldr Nat.max 0,
      foldr_max_mem _ (by intro hc; apply h; simpa using hc),
      le_foldr_max _, ?_⟩
    simp only [get_stats]
    rw [longest_session_of_ne_nil _ hmapne, hsecs]

theorem stats_aggregation_correct_witness :
    (get_stats statsDemoState).total_sessions
        = statsDemoState.session_store.length ∧
    ∃ m : Nat, m ∈ statsDemoState.session_store.map (fun kv => kv.2.seconds) ∧
      (∀ x ∈ statsDemoState.session_store.map (fun kv => kv.2.seconds), x ≤ m) ∧
      (get_stats statsDemoState).longest_session_minutes
        = round1 ((m : ℚ) / 60) := by
  have h := stats_aggregation_correct statsDemoState
  exact ⟨h.1, h.2.2.2.2.2 (by decide)⟩

/-- C8: `completed_tasks` and `active_tasks` partition the stored
tasks: their sum is the size of the task store (stated for stores whose
`completed` fields are all set, i.e. every state the unvalidated
`model_copy` path has not corrupted — on a corrupted store the Python
`sum(task.completed ...)` would raise `TypeError` instead of
returning). -/
theorem stats_task_counts_partition (s : AppState)
    (h : ∀ kv ∈ s.task_store, (kv.2).completed ≠ none) :
    (get_stats s).completed_tasks + (get_stats s).active_tasks
      = s.task_store.length := by
  simp only [get_stats]
  rw [← List.length_map s.task_store (fun kv => kv.2)]
  exact (List.length_eq_length_filter_add
    (fun t : Task => t.completed == some true)).symm

theorem stats_task_counts_partition_witness :
    (get_stats statsDemoState).completed_tasks
        + (get_stats statsDemoState).active_tasks
      = statsDemoState.task_store.length :=
  stats_task_counts_partition statsDemoState (by decide)


/-- Tasks A, B, C created in order, then B (id 2) marked completed. -/
def orderingDemoState : AppState :=
  run [Op.createTask
        { title := "A", description := none, priority := .medium,
          estimated_minutes := none } 0,
      Op.createTask
        { title := "B", description := none, priority := .medium,
          estimated_minutes := none } 1,
      Op.createTask
        { title := "C", description := none, priority := .medium,
          estimated_minutes := none } 2,
      Op.updateTask 2
        { title := .unset, description := .unset, priority := .unset,
          estimated_minutes := .unset, completed := .set (some true) }]

/-- C5: `GET /tasks` returns a permutation of the stored tasks in which
incomplete tasks all precede completed ones and, within each of the two
groups, `created_at` is non-increasing (newest first); concretely,
after creating A, B, C in that order and completing B, the listing is
[C, A, B]. -/
theorem list_tasks_ordering :
    (∀ s : AppState,
      List.Perm (list_tasks s) (s.task_store.map (fun kv => kv.2)) ∧
      ((∀ kv ∈ s.task_store, (kv.2).completed ≠ none) →
        (list_tasks s).Pairwise (fun a b =>
          (a.completed = some true → b.completed = some true) ∧
          (a.completed = b.completed → b.created_at ≤ a.created_at)))) ∧
    (list_tasks orderingDemoState).map (fun t => t.title)
      = [some "C", some "A", some "B"] := by
  constructor
  · intro s
    constructor
    · exact List.perm_insertionSort taskLe _
    · intro hset
      have hsorted : (list_tasks s).Pairwise taskLe :=
        List.sorted_insertionSort taskLe _
      have hmem : ∀ t ∈ list_tasks s, t.completed ≠ none := by
        intro t ht
        have : t ∈ s.task_store.map (fun kv => kv.2) :=
          (List.perm_insertionSort taskLe _).mem_iff.mp ht
        obtain ⟨kv, hkv, rfl⟩ := List.mem_map.mp this
        exact hset kv hkv
      refine List.Pairwise.imp_of_mem ?_ hsorted
      intro a b ha hb hab
      obtain ⟨ba, hba⟩ := Option.ne_none_iff_exists'.mp (hmem a ha)
      obtain ⟨bb, hbb⟩ := Option.ne_none_iff_exists'.mp (hmem b hb)
      unfold taskLe at hab
      rw [hba, hbb] at hab ⊢
      cases ba <;> cases bb <;>
        simp [pyCompletedKey] at hab ⊢ <;> omega
  · rfl


theorem list_tasks_ordering_witness :
    (list_tasks orderingDemoState).Pairwise (fun a b =>
      (a.completed = some true → b.completed = some true) ∧
      (a.completed = b.completed → b.created_at ≤ a.created_at)) :=
  (list_tasks_ordering.1 orderingDemoState).2 (by decide)

/-- C1: a successful `PATCH /tasks/{id}` overwrites exactly the fields
present in the payload: absent fields keep their stored values, a field
supplied (even as an explicit null, e.g. clearing `estimated_minutes`)
is written as given, `id` and `created_at` are never changed, the new
record replaces the stored one under the same id, and no other task and
nothing session-side is affected. -/
theorem update_applies_exactly_supplied_fields (s : AppState) (i : Nat)
    (p : TaskUpdate) (t0 : Task) (h : dictGet s.task_store i = some t0) :
    ∃ t s2, update_task s i p = .ok (t, s2) ∧
      t.id = t0.id ∧
      t.created_at = t0.created_at ∧
      (p.title = .unset → t.title = t0.title) ∧
      (∀ v, p.title = .set v → t.title = v) ∧
      (p.description = .unset → t.description = t0.description) ∧
      (∀ v, p.description = .set v → t.description = v) ∧
      (p.priority = .unset → t.priority = t0.priority) ∧
      (∀ v, p.priority = .set v → t.priority = v) ∧
      (p.estimated_minutes = .unset → t.estimated_minutes = t0.estimated_minutes) ∧
      (∀ v, p.estimated_minutes = .set v → t.estimated_minutes = v) ∧
      (p.completed = .unset → t.completed = t0.completed) ∧
      (∀ v, p.completed = .set v → t.completed = v) ∧
      dictGet s2.task_store i = some t ∧
      (∀ k, k ≠ i → dictGet s2.task_store k = dictGet s.task_store k) ∧
      s2.session_store = s.session_store ∧
      s2.session_id_counter = s.session_id_counter ∧
      s2.task_id_counter = s.task_id_counter := by
  refine ⟨applyUpdate t0 p,
    { s with task_store := dictSet s.task_store i (applyUpdate t0 p) },
    ?_, rfl, rfl, ?_, ?_, ?_, ?_, ?_, ?_, ?_, ?_, ?_, ?_, ?_, ?_, rfl, rfl, rfl⟩
  · simp [update_task, h]
  · intro hc; simp [applyUpdate, hc]
  · intro v hc; simp [applyUpdate, hc]
  · intro hc; simp [applyUpdate, hc]
  · intro v hc; simp [applyUpdate, hc]
  · intro hc; simp [applyUpdate, hc]
  · intro v hc; simp [applyUpdate, hc]
  · intro hc; simp [applyUpdate, hc]
  · intro v hc; simp [applyUpdate, hc]
  · intro hc; simp [applyUpdate, hc]
  · intro v hc; simp [applyUpdate, hc]
  · exact dictGet_dictSet_self _ _ _
  · intro k hk; exact dictGet_dictSet_ne _ _ _ _ hk

theorem update_applies_exactly_supplied_fields_witness :
    ∃ t s2,
      update_task
        (step initState (Op.createTask
          { title := "T", description := some "d", priority := .high,
            estimated_minutes := some 30 } 5)) 1
        { title := .unset, description := .unset, priority := .unset,
          estimated_minutes := .set none, completed := .set (some true) }
        = .ok (t, s2) ∧
      t.title = some "T" ∧ t.estimated_minutes = none ∧
      t.completed = some true ∧ t.created_at = 5 := by
  obtain ⟨t, s2, hok, hid, hca, hti, -, hde, -, hpr, -, -, hes, -, hco, -, -, -, -, -⟩ :=
    update_applies_exactly_supplied_fields
      (step initState (Op.createTask
        { title := "T", description := some "d", priority := .high,
          estimated_minutes := some 30 } 5)) 1
      { title := .unset, description := .unset, priority := .unset,
        estimated_minutes := .set none, completed := .set (some true) }
      { id := 1, title := some "T", description := some "d",
        priority := some .high, estimated_minutes := some 30,
        completed := some false, created_at := 5 } rfl
  exact ⟨t, s2, hok, by rw [hti rfl], hes none rfl, hco (some true) rfl, hca⟩

/-- C6: `PATCH` and `DELETE` on an id that is not in the task store
fail with 404 and leave the whole state untouched (the lookup precedes
any write); when the id is present, `DELETE` succeeds and removes
exactly that record, leaving every other task and everything
session-side unchanged. -/
theorem missing_id_fails_without_mutation (s : AppState) (i : Nat)
    (p : TaskUpdate) :
    (dictGet s.task_store i = none →
      update_task s i p = .error .notFound ∧
      delete_task s i = .error .notFound ∧
      step s (.updateTask i p) = s ∧
      step s (.deleteTask i) = s) ∧
    (∀ t0, dictGet s.task_store i = some t0 →
      ∃ s2, delete_task s i = .ok s2 ∧
        dictGet s2.task_store i = none ∧
        (∀ k, k ≠ i → dictGet s2.task_store k = dictGet s.task_store k) ∧
        s2.session_store = s.session_store ∧
        s2.session_id_counter = s.session_id_counter ∧
        s2.task_id_counter = s.task_id_counter) := by
  constructor
  · intro h
    have hhas : dictHas s.task_store i = false := (dictGet_eq_none_iff _ _).mp h
    refine ⟨by simp [update_task, h], by simp [delete_task, hhas], ?_, ?_⟩
    · simp [step, update_task, h]
    · simp [step, delete_task, hhas]
  · intro t0 h
    have hhas : dictHas s.task_store i = true := dictHas_eq_true_of_get _ _ _ h
    refine ⟨{ s with task_store := dictDel s.task_store i },
      by simp [delete_task, hhas], dictGet_dictDel_self _ _, ?_, rfl, rfl, rfl⟩
    intro k hk; exact dictGet_dictDel_ne _ _ _ hk

theorem missing_id_fails_without_mutation_witness :
    update_task initState 7
        { title := .unset, description := .unset, priority := .unset,
          estimated_minutes := .unset, completed := .unset }
      = .error .notFound ∧
    delete_task initState 7 = .error .notFound :=
  let h := (missing_id_fails_without_mutation initState 7
    { title := .unset, description := .unset, priority := .unset,
      estimated_minutes := .unset, completed := .unset }).1 rfl
  ⟨h.1, h.2.1⟩

/-- C9: a `PATCH` whose payload supplies no field at all succeeds and
is a no-op: it returns the stored task unchanged and leaves the state
exactly equal to what it was. -/
theorem empty_update_is_identity (s : AppState) (i : Nat) (t0 : Task)
    (h : dictGet s.task_store i = some t0) :
    update_task s i
        { title := .unset, description := .unset, priority := .unset,
          estimated_minutes := .unset, completed := .unset }
      = .ok (t0, s) := by
  have happ : applyUpdate t0
      { title := .unset, description := .unset, priority := .unset,
        estimated_minutes := .unset, completed := .unset } = t0 := rfl
  simp [update_task, h, happ, dictSet_self s.task_store i t0 h]

theorem empty_update_is_identity_witness :
    update_task
        (step initState (Op.createTask
          { title := "T", description := none, priority := .low,
            estimated_minutes := none } 3)) 1
        { title := .unset, description := .unset, priority := .unset,
          estimated_minutes := .unset, completed := .unset }
      = .ok
        ({ id := 1, title := some "T", description := none,
           priority := some .low, estimated_minutes := none,
           completed := some false, created_at := 3 },
         step initState (Op.createTask
          { title := "T", description := none, priority := .low,
            estimated_minutes := none } 3)) :=
  empty_update_is_identity _ 1 _ rfl


/-- C3: `POST /sessions` with a `task_id` that names no stored task
fails with 404 before the session id counter is drawn: the state is
untouched, and any later successful session creation from that state
still receives the id the failed call would have received. -/
theorem session_create_checks_reference_before_mutation (s : AppState)
    (p : FocusSessionCreate) (now : Nat) (tid : Nat)
    (h1 : p.task_id = some tid) (h2 : dictGet s.task_store tid = none) :
    create_session s p now = .error .notFound ∧
    step s (.createSession p now) = s ∧
    (∀ p2 now2 r, create_session s p2 now2 = .ok r →
      r.1.id = s.session_id_counter) := by
  have hhas : dictHas s.task_store tid = false := (dictGet_eq_none_iff _ _).mp h2
  refine ⟨by simp [create_session, h1, hhas], by simp [step, create_session, h1, hhas], ?_⟩
  intro p2 now2 r hok
  by_cases hc : (match p2.task_id with
      | some t => !(dictHas s.task_store t)
      | none => false) = true
  · simp [create_session, hc] at hok
  · simp only [create_session, hc, if_neg, Bool.false_eq_true, if_false] at hok
    obtain ⟨hsess, -⟩ := Prod.mk.injEq .. ▸ (Except.ok.injEq .. ▸ hok)
    rw [← hsess]

theorem session_create_checks_reference_before_mutation_witness :
    create_session initState
        { task_id := some 1, seconds := 60, note := none } 0
      = .error .notFound ∧
    step initState (.createSession
        { task_id := some 1, seconds := 60, note := none } 0)
      = initState ∧
    (create_session initState
        { task_id := none, seconds := 90, note := none } 4).toOption.map
        (fun r => r.1.id)
      = some 1 := by
  have h := session_create_checks_reference_before_mutation initState
    { task_id := some 1, seconds := 60, note := none } 0 1 rfl rfl
  exact ⟨h.1, h.2.1, rfl⟩

/-- The `PATCH` body `{"title": null}`: pydantic accepts it, because
`TaskUpdate.title` is annotated `str | None`. -/
def nullTitlePayload : TaskUpdate :=
  { title := .set none, description := .unset, priority := .unset,
    estimated_minutes := .unset, completed := .unset }

/-- The store holding the single task id 1, title "A". -/
def singleTaskState : AppState :=
  step initState (Op.createTask
    { title := "A", description := none, priority := .medium,
      estimated_minutes := none } 0)

/-- C7 (refuted — the invariant does not hold): the `PATCH` payload
`{"title": null}` passes boundary validation (`title : str | None`
accepts the explicit null), and `model_copy(update=...)` applies it
without re-validating, so the update succeeds in mutating the store and
the stored task ends up with no title at all — the 1–120-character
title invariant is broken by a boundary-valid request. -/
theorem explicit_null_title_corrupts_stored_task :
    validTaskUpdate nullTitlePayload = true ∧
    update_task singleTaskState 1 nullTitlePayload
      = .ok
        ({ id := 1, title := none, description := none,
           priority := some .medium, estimated_minutes := none,
           completed := some false, created_at := 0 },
         { task_store :=
            [(1, { id := 1, title := none, description := none,
                   priority := some .medium, estimated_minutes := none,
                   completed := some false, created_at := 0 })],
           session_store := [], task_id_counter := 2,
           session_id_counter := 1 }) ∧
    (dictGet (step singleTaskState (Op.updateTask 1 nullTitlePayload)).task_store
        1).map (fun t => t.title)
      = some none := by
  exact ⟨rfl, rfl, rfl⟩


end FocusPad
